import Mathlib

/-!
Shallow embedding of the simulation core of `bevy_pong` (src/src/lib.rs).

Scalars that the Rust code stores as `f32` are modelled as exact rationals
(`ℚ`): the claims under scrutiny concern the algorithmic structure of the
tick functions (bound checks, branch priority, exact clamping and Euler
integration), not floating-point rounding.  Key codes are modelled as an
abstract countable set (`ℕ`); the key-pressed predicate of the host is a
boolean-valued function.  Presentation-only fields (colors, fonts) carry no
gameplay information and are omitted from the option records.

The systems `handle_player_input`, `speedup_ball`, `apply_ball_velocity` and
`check_point_scored` are translated function by function; Bevy ECS queries
become explicit lists or per-entity arguments, and `EventWriter` output
becomes an explicit list of emitted events.
-/

namespace Pong

/-- Two-dimensional vector with exact rational coordinates (models `Vec2`). -/
structure Vec2 where
  x : ℚ
  y : ℚ
deriving DecidableEq, Repr

/-- Three-dimensional vector with exact rational coordinates (models `Vec3`). -/
structure Vec3 where
  x : ℚ
  y : ℚ
  z : ℚ
deriving DecidableEq, Repr

/-- Abstract key-code set; concrete values are irrelevant to the logic. -/
abbrev KeyCode := ℕ

/-- The two players/paddle sides (source enum `Player`). -/
inductive Player where
  | Player1 : Player
  | Player2 : Player
deriving DecidableEq, Repr

/-- Source struct `GameOptions` (background color omitted, presentation-only). -/
structure GameOptions where
  size : Vec2
  position : Vec3
deriving DecidableEq, Repr

/-- Source struct `PlayerOptions` (colors omitted, presentation-only).
`player1_keys`/`player2_keys` hold (up, down) key bindings. -/
structure PlayerOptions where
  size : Vec2
  player1_keys : KeyCode × KeyCode
  player2_keys : KeyCode × KeyCode
  speed : ℚ
deriving DecidableEq, Repr

/-- Source struct `BallOptions` (color omitted, presentation-only).
The Rust field `start_velocity : fn() -> Vec2` is a nullary pure function,
i.e. a constant; it is modelled by the `Vec2` it returns. -/
structure BallOptions where
  size : Vec2
  start_velocity : Vec2
  speedup_factor : ℚ
  speedup_time : ℚ
deriving DecidableEq, Repr

/-- Source struct `PongOptions` (score-display options omitted: they only
configure the presentation sink `update_score_text`). -/
structure PongOptions where
  game : GameOptions
  player : PlayerOptions
  ball : BallOptions
deriving DecidableEq, Repr

/-- Source `PongOptions::up_for`. -/
def PongOptions.up_for (o : PongOptions) (p : Player) : KeyCode :=
  match p with
  | Player.Player1 => o.player.player1_keys.1
  | Player.Player2 => o.player.player2_keys.1

/-- Source `PongOptions::down_for`. -/
def PongOptions.down_for (o : PongOptions) (p : Player) : KeyCode :=
  match p with
  | Player.Player1 => o.player.player1_keys.2
  | Player.Player2 => o.player.player2_keys.2

/-- The default configuration (source `Default` impls): 600×400 arena,
5×50 paddles at speed 200, 15×15 ball starting at velocity (30, 15),
speed-up factor 1.1 every 1.5 s.  Key bindings W/S and Up/Down are
represented by the arbitrary distinct codes 0, 1, 2, 3. -/
def default_options : PongOptions :=
  ⟨⟨⟨600, 400⟩, ⟨0, 0, 0⟩⟩,
   ⟨⟨5, 50⟩, (0, 1), (2, 3), 200⟩,
   ⟨⟨15, 15⟩, ⟨30, 15⟩, 11/10, 3/2⟩⟩

/-! ## Input-driven paddle motion (source system `handle_player_input`)

The source iterates over all paddles; the loop body touches only the paddle
at hand, so the system is embedded as the per-paddle update of the vertical
coordinate `y0`.  `pressed` is the host's key-pressed predicate, `dt` the
frame's elapsed seconds.  Note the second bound check reads the coordinate
value as already mutated by the first branch, exactly as the `&mut` access
`*y` in the source does. -/

/-- One tick of the paddle-motion system for one paddle with vertical
center `y0`; returns the new vertical center. -/
def handle_player_input (o : PongOptions) (dt : ℚ) (pressed : KeyCode → Bool)
    (p : Player) (y0 : ℚ) : ℚ :=
  let movement := o.player.speed * dt
  let hps := o.player.size.y / 2
  let hgs := o.game.size.y / 2
  let y1 := if pressed (o.up_for p) = true ∧ y0 + hps + movement ≤ hgs
    then y0 + movement else y0
  let y2 := if pressed (o.down_for p) = true ∧ y1 - hps - movement ≥ -hgs
    then y1 - movement else y1
  y2

/-- The paddle-motion step as the specification sentence describes it:
BOTH bound checks evaluated against the pre-move position `y0`.  Written
from the spec's words, to be compared with `handle_player_input`, which is
translated from the source. -/
def handle_player_input_premove (o : PongOptions) (dt : ℚ) (pressed : KeyCode → Bool)
    (p : Player) (y0 : ℚ) : ℚ :=
  let movement := o.player.speed * dt
  let hps := o.player.size.y / 2
  let hgs := o.game.size.y / 2
  let up := if pressed (o.up_for p) = true ∧ y0 + hps + movement ≤ hgs
    then movement else 0
  let down := if pressed (o.down_for p) = true ∧ y0 - hps - movement ≥ -hgs
    then movement else 0
  y0 + up - down

/-! ## Speed-up timer (source resource `BallSpeedupTimer` and system `speedup_ball`)

The repeating `Timer` type comes from the external engine and its source is
not part of this repository; it is modelled from the spec (§3, §4.3). -/

/-- Modelled from the spec: the engine's repeating countdown timer used as
`BallSpeedupTimer`.  Missing from the repository source (external engine
type).  Per §4.3 the timer advances by `dt`; crossing one or more period
boundaries in a single tick counts as having "just finished" exactly once
(multiple elapsed periods coalesce), and the elapsed value wraps modulo the
period. -/
structure Timer where
  duration : ℚ
  elapsed : ℚ
deriving DecidableEq, Repr

/-- Modelled from the spec: one advancement of the repeating timer by `dt`
seconds; returns the advanced timer and the `just_finished` flag.  Missing
from the repository source (external engine function). -/
def Timer.tick (t : Timer) (dt : ℚ) : Timer × Bool :=
  let e := t.elapsed + dt
  if t.duration ≤ e then
    (⟨t.duration, e - t.duration * (⌊e / t.duration⌋ : ℤ)⟩, true)
  else
    (⟨t.duration, e⟩, false)

/-- Source system `speedup_ball`: advance the timer by `dt`; when it just
finished, multiply every ball velocity componentwise by the configured
speed-up factor; otherwise leave all velocities unchanged.  The query over
ball velocities is embedded as a list. -/
def speedup_ball (o : PongOptions) (timer : Timer) (dt : ℚ)
    (ball_velocities : List Vec2) : Timer × List Vec2 :=
  let r := timer.tick dt
  if r.2 = true then
    (r.1, ball_velocities.map (fun v => ⟨v.x * o.ball.speedup_factor, v.y * o.ball.speedup_factor⟩))
  else
    (r.1, ball_velocities)

/-! ## Geometry/collision (external `bevy::sprite::collide_aabb::collide`) -/

/-- The four collision faces (external enum `Collision`, re-exported and
matched on by the source). -/
inductive Collision where
  | Left : Collision
  | Right : Collision
  | Top : Collision
  | Bottom : Collision
deriving DecidableEq, Repr

/-- Modelled from the spec: the external AABB collision test `collide`
(§4.1), whose source is not part of this repository.  Standard AABB overlap
of box A (center `a_pos`, size `a_size`) and box B (center `b_pos`, size
`b_size`); the returned face of B struck by A is chosen per axis by the
containment pattern of A's extent in B's, and when both axes report a face
the one with the smaller penetration depth wins.  Returns `none` when the
boxes do not overlap. -/
def collide (a_pos : Vec3) (a_size : Vec2) (b_pos : Vec3) (b_size : Vec2) :
    Option Collision :=
  let a_min_x := a_pos.x - a_size.x / 2
  let a_max_x := a_pos.x + a_size.x / 2
  let a_min_y := a_pos.y - a_size.y / 2
  let a_max_y := a_pos.y + a_size.y / 2
  let b_min_x := b_pos.x - b_size.x / 2
  let b_max_x := b_pos.x + b_size.x / 2
  let b_min_y := b_pos.y - b_size.y / 2
  let b_max_y := b_pos.y + b_size.y / 2
  if a_min_x < b_max_x ∧ a_max_x > b_min_x ∧ a_min_y < b_max_y ∧ a_max_y > b_min_y then
    let x_col : Option (Collision × ℚ) :=
      if a_min_x < b_min_x ∧ a_max_x > b_min_x ∧ a_max_x < b_max_x then
        some (Collision.Left, b_min_x - a_max_x)
      else if a_min_x > b_min_x ∧ a_min_x < b_max_x ∧ a_max_x > b_max_x then
        some (Collision.Right, a_min_x - b_max_x)
      else none
    let y_col : Option (Collision × ℚ) :=
      if a_min_y < b_min_y ∧ a_max_y > b_min_y ∧ a_max_y < b_max_y then
        some (Collision.Bottom, b_min_y - a_max_y)
      else if a_min_y > b_min_y ∧ a_min_y < b_max_y ∧ a_max_y > b_max_y then
        some (Collision.Top, a_min_y - b_max_y)
      else none
    match x_col, y_col with
    | some (xc, xd), some (yc, yd) => if |yd| < |xd| then some yc else some xc
    | some (xc, _), none => some xc
    | none, some (yc, _) => some yc
    | none, none => none
  else none

/-! ## Ball physics (source system `apply_ball_velocity`) -/

/-- Position and velocity of the single ball (its `Transform` translation
and `Velocity` component). -/
structure BallState where
  pos : Vec3
  vel : Vec2
deriving DecidableEq, Repr

/-- The explicit Euler integration the source performs first:
`trans.translation.{x,y} += vel.{x,y} * delta` (z untouched). -/
def integrate (dt : ℚ) (b : BallState) : Vec3 :=
  ⟨b.pos.x + b.vel.x * dt, b.pos.y + b.vel.y * dt, b.pos.z⟩

/-- The body of the source's paddle loop: test the paddle against the ball's
(post-integration) position; `Left`/`Right` negates the horizontal velocity
component, `Top`/`Bottom` the vertical one, no overlap leaves the velocity
unchanged.  The ball position is read, never written, by this loop. -/
def resolve_paddle (o : PongOptions) (ball_pos : Vec3) (v : Vec2)
    (paddle_pos : Vec3) : Vec2 :=
  match collide paddle_pos o.player.size ball_pos o.ball.size with
  | some Collision.Left => ⟨-v.x, v.y⟩
  | some Collision.Right => ⟨-v.x, v.y⟩
  | some Collision.Top => ⟨v.x, -v.y⟩
  | some Collision.Bottom => ⟨v.x, -v.y⟩
  | none => v

/-- The ball's velocity after the source's loop over all paddles (the
`players` query embedded as the list of paddle positions). -/
def paddle_vel (o : PongOptions) (dt : ℚ) (paddles : List Vec3) (b : BallState) : Vec2 :=
  paddles.foldl (resolve_paddle o (integrate dt b)) b.vel

/-- Source system `apply_ball_velocity` for one ball: Euler integration,
then the paddle-collision loop (velocity only), then the top/bottom wall
check on the integrated position with exact clamping and vertical velocity
negation; top is tested first, bottom only in the `else` branch. -/
def apply_ball_velocity (o : PongOptions) (dt : ℚ) (paddles : List Vec3)
    (b : BallState) : BallState :=
  let hgs := o.game.size.y / 2
  let hbs := o.ball.size.y / 2
  let pos1 := integrate dt b
  let vel1 := paddle_vel o dt paddles b
  if pos1.y + hbs ≥ hgs then
    ⟨⟨pos1.x, hgs - hbs, pos1.z⟩, ⟨vel1.x, -vel1.y⟩⟩
  else if pos1.y - hbs ≤ -hgs then
    ⟨⟨pos1.x, -hgs + hbs, pos1.z⟩, ⟨vel1.x, -vel1.y⟩⟩
  else
    ⟨pos1, vel1⟩

/-! ## Scoring (source system `check_point_scored`) -/

/-- A scored-point notification (source `ScoredPointEvent(Player, Score)`);
the score is the player's new total.  `Score` is a `u16` in the source, so
increments wrap modulo 2^16. -/
structure ScoredPointEvent where
  player : Player
  score : ℕ
deriving DecidableEq, Repr

/-- The mutable state `check_point_scored` touches: the single ball's
transform and velocity, both paddles' vertical positions and both scores. -/
structure PongState where
  ballPos : Vec3
  ballVel : Vec2
  p1Y : ℚ
  p2Y : ℚ
  p1Score : ℕ
  p2Score : ℕ
deriving DecidableEq, Repr

namespace Ball

/-- Source `Ball::start_position`: the translation the ball is spawned
with, `(0, 0, game.position.z + 1)`. -/
def start_position (o : PongOptions) : Vec3 :=
  ⟨0, 0, o.game.position.z + 1⟩

end Ball

/-- Source system `check_point_scored` for the single ball: if the ball's
left edge is at or beyond the left boundary, reset the ball (translation to
`(0,0,1)`, velocity regenerated), increment Player2's score, emit one event
for Player2 and zero both paddles' vertical positions; otherwise, if the
right edge is at or beyond the right boundary, the same with Player1
scoring.  Returns the new state and the list of emitted events. -/
def check_point_scored (o : PongOptions) (st : PongState) :
    PongState × List ScoredPointEvent :=
  let max_x := o.game.size.x / 2
  let min_x := -max_x
  let hbsx := o.ball.size.x / 2
  if st.ballPos.x - hbsx ≤ min_x then
    let s := (st.p2Score + 1) % 65536
    (⟨⟨0, 0, 1⟩, o.ball.start_velocity, 0, 0, st.p1Score, s⟩,
     [⟨Player.Player2, s⟩])
  else if st.ballPos.x + hbsx ≥ max_x then
    let s := (st.p1Score + 1) % 65536
    (⟨⟨0, 0, 1⟩, o.ball.start_velocity, 0, 0, s, st.p2Score⟩,
     [⟨Player.Player1, s⟩])
  else
    (st, [])

/-! ## Concrete configurations used by counterexamples and witnesses -/

/-- A degenerate configuration whose ball (width 6) is wider than the arena
(width 2); the only way a ball can satisfy both scoring conditions at once. -/
def wide_ball_options : PongOptions :=
  ⟨⟨⟨2, 400⟩, ⟨0, 0, 0⟩⟩,
   ⟨⟨5, 50⟩, (0, 1), (2, 3), 200⟩,
   ⟨⟨6, 15⟩, ⟨30, 15⟩, 11/10, 3/2⟩⟩

/-- A degenerate configuration whose ball (height 4) is taller than the
arena (height 2); the only way a ball can satisfy both wall conditions at
once. -/
def tall_ball_options : PongOptions :=
  ⟨⟨⟨600, 2⟩, ⟨0, 0, 0⟩⟩,
   ⟨⟨5, 50⟩, (0, 1), (2, 3), 200⟩,
   ⟨⟨15, 4⟩, ⟨30, 15⟩, 11/10, 3/2⟩⟩

/-- A configuration with 2×2 paddles and a 2×2 ball, convenient for placing
a concrete paddle-face collision. -/
def square_options : PongOptions :=
  ⟨⟨⟨600, 400⟩, ⟨0, 0, 0⟩⟩,
   ⟨⟨2, 2⟩, (0, 1), (2, 3), 200⟩,
   ⟨⟨2, 2⟩, ⟨30, 15⟩, 11/10, 3/2⟩⟩

/-- The default configuration moved to depth `game.position.z = 5`. -/
def depth_options : PongOptions :=
  ⟨⟨⟨600, 400⟩, ⟨0, 0, 5⟩⟩,
   ⟨⟨5, 50⟩, (0, 1), (2, 3), 200⟩,
   ⟨⟨15, 15⟩, ⟨30, 15⟩, 11/10, 3/2⟩⟩

/-! ## Claim C1 — simultaneous up+down bound checks -/

/-- Claim C1, counterexample: `handle_player_input` does NOT evaluate the
down-key bound test against the pre-move position.  With the default
configuration (movement 10, half paddle 25, half arena 200), a paddle at
y = -170 with both keys held ends at -170 under the source semantics (the
down check reads the y already moved up to -160 and passes), while the
claimed both-checks-pre-move semantics ends at -160 (the down check against
the original -170 fails). -/
theorem handle_player_input_premove_cex :
    handle_player_input default_options (1/20) (fun _ => true) Player.Player1 (-170)
      ≠ handle_player_input_premove default_options (1/20) (fun _ => true) Player.Player1 (-170) := by
  norm_num [handle_player_input, handle_player_input_premove, default_options,
    PongOptions.up_for, PongOptions.down_for]

/-- Claim C1, amended: in `handle_player_input` the down-key bound test is
evaluated against the vertical position already updated by the up-key
branch; for a centered paddle with both keys held (and the bound checks
satisfiable, movement nonnegative) both moves succeed and the net
displacement is zero. -/
theorem handle_player_input_centered_net_zero (o : PongOptions) (dt : ℚ)
    (pressed : KeyCode → Bool) (p : Player)
    (hup : pressed (o.up_for p) = true) (hdn : pressed (o.down_for p) = true)
    (hm : o.player.size.y / 2 + o.player.speed * dt ≤ o.game.size.y / 2)
    (h0 : 0 ≤ o.player.speed * dt) :
    handle_player_input o dt pressed p 0 = 0 := by
  simp only [handle_player_input]
  split_ifs with h1 h2
  · ring
  · exact absurd ⟨hdn, by linarith⟩ h2
  · exact absurd ⟨hup, by linarith⟩ h1
  · exact absurd ⟨hup, by linarith⟩ h1

/-- Claim C1, witness for the amended theorem at the default configuration. -/
theorem handle_player_input_centered_net_zero_witness :
    handle_player_input default_options (1/20) (fun _ => true) Player.Player1 0 = 0 :=
  handle_player_input_centered_net_zero default_options (1/20) (fun _ => true) Player.Player1
    rfl rfl (by norm_num [default_options]) (by norm_num [default_options])

/-! ## Claim C2 — simultaneous left+right scoring -/

/-- Claim C2, counterexample: with a ball wider than the arena sitting at
the center, both scoring conditions hold simultaneously, yet
`check_point_scored` emits a single event (for Player2) instead of the two
events the claim asserts: the `else if` never evaluates the right-boundary
condition. -/
theorem check_point_scored_both_sides_cex :
    (⟨0, 0, 1⟩ : Vec3).x - wide_ball_options.ball.size.x / 2
        ≤ -(wide_ball_options.game.size.x / 2)
    ∧ (⟨0, 0, 1⟩ : Vec3).x + wide_ball_options.ball.size.x / 2
        ≥ wide_ball_options.game.size.x / 2
    ∧ (check_point_scored wide_ball_options ⟨⟨0, 0, 1⟩, ⟨30, 15⟩, 0, 0, 0, 0⟩).2
        = [⟨Player.Player2, 1⟩] := by
  norm_num [check_point_scored, wide_ball_options]

/-- Claim C2, amended: when a ball satisfies both the left and the right
scoring condition in the same tick, only the left-boundary branch runs:
exactly one `ScoredPointEvent` is emitted, for the right-side player
(Player2) with its incremented score, and no event for Player1 fires. -/
theorem check_point_scored_both_sides (o : PongOptions) (st : PongState)
    (hL : st.ballPos.x - o.ball.size.x / 2 ≤ -(o.game.size.x / 2))
    (_hR : st.ballPos.x + o.ball.size.x / 2 ≥ o.game.size.x / 2) :
    (check_point_scored o st).2 = [⟨Player.Player2, (st.p2Score + 1) % 65536⟩] := by
  simp only [check_point_scored]
  rw [if_pos hL]

/-- Claim C2, witness for the amended theorem: the wider-than-arena ball at
the center. -/
theorem check_point_scored_both_sides_witness :
    (check_point_scored wide_ball_options ⟨⟨0, 0, 1⟩, ⟨30, 15⟩, 0, 0, 0, 6⟩).2
      = [⟨Player.Player2, (6 + 1) % 65536⟩] :=
  check_point_scored_both_sides wide_ball_options ⟨⟨0, 0, 1⟩, ⟨30, 15⟩, 0, 0, 0, 6⟩
    (by norm_num [wide_ball_options]) (by norm_num [wide_ball_options])

/-! ## Claim C3 — paddle stays in bounds -/

/-- Claim C3: for every `dt ≥ 0` (and nonnegative configured paddle speed),
a paddle whose vertical center lies within `[-H/2 + h/2, H/2 - h/2]` before
the tick still lies within that interval after one execution of
`handle_player_input`, whatever keys are held. -/
theorem handle_player_input_in_bounds (o : PongOptions) (dt : ℚ)
    (pressed : KeyCode → Bool) (p : Player) (y0 : ℚ)
    (hdt : 0 ≤ dt) (hsp : 0 ≤ o.player.speed)
    (hlo : -(o.game.size.y / 2) + o.player.size.y / 2 ≤ y0)
    (hhi : y0 ≤ o.game.size.y / 2 - o.player.size.y / 2) :
    -(o.game.size.y / 2) + o.player.size.y / 2 ≤ handle_player_input o dt pressed p y0
    ∧ handle_player_input o dt pressed p y0 ≤ o.game.size.y / 2 - o.player.size.y / 2 := by
  have hm : 0 ≤ o.player.speed * dt := mul_nonneg hsp hdt
  simp only [handle_player_input]
  split_ifs with h1 h2 h3
  · exact ⟨by linarith [h1.2, h2.2], by linarith [h1.2, h2.2]⟩
  · exact ⟨by linarith [h1.2], by linarith [h1.2]⟩
  · exact ⟨by linarith [h3.2], by linarith [h3.2]⟩
  · exact ⟨by linarith, by linarith⟩

/-- Claim C3, witness: default configuration, centered paddle, both keys
held, `dt = 1/20`. -/
theorem handle_player_input_in_bounds_witness :
    -(default_options.game.size.y / 2) + default_options.player.size.y / 2
        ≤ handle_player_input default_options (1/20) (fun _ => true) Player.Player1 0
    ∧ handle_player_input default_options (1/20) (fun _ => true) Player.Player1 0
        ≤ default_options.game.size.y / 2 - default_options.player.size.y / 2 :=
  handle_player_input_in_bounds default_options (1/20) (fun _ => true) Player.Player1 0
    (by norm_num) (by norm_num [default_options])
    (by norm_num [default_options]) (by norm_num [default_options])

/-! ## Claim C4 — speed-up fires at most once per tick -/

/-- Claim C4: one execution of `speedup_ball` scales each ball velocity by
the configured factor at most once.  Concretely: (i) on a tick where the
timer does not cross a period boundary (`e + dt < T`) every velocity is
left unchanged; (ii) a fresh timer ticked by `dt = 10 × period` fires and
applies the componentwise scaling exactly once (not ten times); (iii) on
any tick the output velocities are either unchanged or scaled exactly
once. -/
theorem speedup_at_most_once (o : PongOptions) (T e dt : ℚ) (vels : List Vec2)
    (hT : 0 < T) :
    (e + dt < T → (speedup_ball o ⟨T, e⟩ dt vels).2 = vels)
    ∧ (speedup_ball o ⟨T, 0⟩ (10 * T) vels).2
        = vels.map (fun v => ⟨v.x * o.ball.speedup_factor, v.y * o.ball.speedup_factor⟩)
    ∧ ((speedup_ball o ⟨T, e⟩ dt vels).2 = vels
        ∨ (speedup_ball o ⟨T, e⟩ dt vels).2
            = vels.map (fun v => ⟨v.x * o.ball.speedup_factor, v.y * o.ball.speedup_factor⟩)) := by
  refine ⟨?_, ?_, ?_⟩
  · intro h
    simp only [speedup_ball, Timer.tick]
    rw [if_neg (not_le.mpr h)]
    simp
  · simp only [speedup_ball, Timer.tick]
    rw [if_pos (by linarith : T ≤ 0 + 10 * T)]
    simp
  · simp only [speedup_ball, Timer.tick]
    by_cases hc : T ≤ e + dt
    · right
      rw [if_pos hc]
      simp
    · left
      rw [if_neg hc]
      simp

/-- Claim C4, witness: the default 1.5 s period, fresh timer, `dt = 15 s`:
one componentwise scaling of the single ball's velocity. -/
theorem speedup_at_most_once_witness :
    (speedup_ball default_options ⟨3/2, 0⟩ (10 * (3/2)) [⟨30, 15⟩]).2
      = [(⟨30, 15⟩ : Vec2)].map
          (fun v => ⟨v.x * default_options.ball.speedup_factor,
                     v.y * default_options.ball.speedup_factor⟩) :=
  (speedup_at_most_once default_options (3/2) 0 1 [⟨30, 15⟩] (by norm_num)).2.1

/-! ## Claim C5 — wall clamping -/

/-- Claim C5, counterexample: with a ball (height 4) taller than the arena
(height 2) at the center, the post-integration position satisfies the
bottom condition `y - hbs ≤ -H/2`, yet `apply_ball_velocity` does not place
the bottom edge on the bottom boundary: the top branch of the `if/else if`
runs first and clamps to the top instead, so the claimed symmetric bottom
handling fails. -/
theorem wall_clamp_bottom_cex :
    (integrate 0 ⟨⟨0, 0, 1⟩, ⟨0, 5⟩⟩).y - tall_ball_options.ball.size.y / 2
        ≤ -(tall_ball_options.game.size.y / 2)
    ∧ (apply_ball_velocity tall_ball_options 0 [] ⟨⟨0, 0, 1⟩, ⟨0, 5⟩⟩).pos.y
        - tall_ball_options.ball.size.y / 2 ≠ -(tall_ball_options.game.size.y / 2) := by
  norm_num [integrate, apply_ball_velocity, paddle_vel, tall_ball_options]

/-- Claim C5, amended: if the post-integration top edge is at or above the
top boundary, `apply_ball_velocity` sets `y + hbs = H/2` exactly and
negates the (post-paddle-resolution) vertical velocity; the symmetric
bottom clamping `y - hbs = -H/2` with vertical negation holds whenever the
bottom condition is met and the top condition is not (the top branch has
priority in the `if/else if`). -/
theorem wall_clamp_exact (o : PongOptions) (dt : ℚ) (paddles : List Vec3) (b : BallState) :
    ((integrate dt b).y + o.ball.size.y / 2 ≥ o.game.size.y / 2 →
      (apply_ball_velocity o dt paddles b).pos.y + o.ball.size.y / 2 = o.game.size.y / 2
      ∧ (apply_ball_velocity o dt paddles b).vel.y = -(paddle_vel o dt paddles b).y)
    ∧ ((integrate dt b).y + o.ball.size.y / 2 < o.game.size.y / 2 →
       (integrate dt b).y - o.ball.size.y / 2 ≤ -(o.game.size.y / 2) →
      (apply_ball_velocity o dt paddles b).pos.y - o.ball.size.y / 2 = -(o.game.size.y / 2)
      ∧ (apply_ball_velocity o dt paddles b).vel.y = -(paddle_vel o dt paddles b).y) := by
  constructor
  · intro h
    simp only [apply_ball_velocity]
    rw [if_pos h]
    exact ⟨by ring, rfl⟩
  · intro h1 h2
    simp only [apply_ball_velocity]
    rw [if_neg (not_le.mpr h1), if_pos h2]
    exact ⟨by ring, rfl⟩

/-- Claim C5, witness for the amended theorem: default configuration, ball
integrated to y = 200 (top edge 207.5 ≥ 200), no paddles. -/
theorem wall_clamp_exact_witness :
    (apply_ball_velocity default_options 0 [] ⟨⟨0, 200, 1⟩, ⟨0, 5⟩⟩).pos.y
        + default_options.ball.size.y / 2 = default_options.game.size.y / 2
    ∧ (apply_ball_velocity default_options 0 [] ⟨⟨0, 200, 1⟩, ⟨0, 5⟩⟩).vel.y
        = -(paddle_vel default_options 0 [] ⟨⟨0, 200, 1⟩, ⟨0, 5⟩⟩).y :=
  (wall_clamp_exact default_options 0 [] ⟨⟨0, 200, 1⟩, ⟨0, 5⟩⟩).1
    (by norm_num [integrate, default_options])

/-! ## Claim C6 — left-boundary scoring effects -/

/-- Claim C6: when the ball's left edge is at or beyond the left boundary
and its right edge is strictly inside the right boundary,
`check_point_scored` emits exactly one event, for Player2 carrying its
incremented score; the ball's translation is reset to `(0,0,1)` (the arena
center) with the configured freshly generated start velocity, both paddles'
vertical positions are reset to 0, and Player1's score is untouched. -/
theorem left_score_effects (o : PongOptions) (st : PongState)
    (hL : st.ballPos.x - o.ball.size.x / 2 ≤ -(o.game.size.x / 2))
    (_hR : st.ballPos.x + o.ball.size.x / 2 < o.game.size.x / 2) :
    (check_point_scored o st).2 = [⟨Player.Player2, (st.p2Score + 1) % 65536⟩]
    ∧ (check_point_scored o st).1.ballPos = ⟨0, 0, 1⟩
    ∧ (check_point_scored o st).1.ballVel = o.ball.start_velocity
    ∧ (check_point_scored o st).1.p1Y = 0
    ∧ (check_point_scored o st).1.p2Y = 0
    ∧ (check_point_scored o st).1.p2Score = (st.p2Score + 1) % 65536
    ∧ (check_point_scored o st).1.p1Score = st.p1Score := by
  simp only [check_point_scored]
  rw [if_pos hL]
  exact ⟨rfl, rfl, rfl, rfl, rfl, rfl, rfl⟩

/-- Claim C6, witness: default configuration, ball at x = -299 (left edge
-306.5 ≤ -300, right edge -291.5 < 300), paddles at 7 and -3, scores 4:9. -/
theorem left_score_effects_witness :
    (check_point_scored default_options ⟨⟨-299, 0, 1⟩, ⟨30, 15⟩, 7, -3, 4, 9⟩).2
      = [⟨Player.Player2, (9 + 1) % 65536⟩]
    ∧ (check_point_scored default_options ⟨⟨-299, 0, 1⟩, ⟨30, 15⟩, 7, -3, 4, 9⟩).1.ballPos
      = ⟨0, 0, 1⟩
    ∧ (check_point_scored default_options ⟨⟨-299, 0, 1⟩, ⟨30, 15⟩, 7, -3, 4, 9⟩).1.ballVel
      = default_options.ball.start_velocity
    ∧ (check_point_scored default_options ⟨⟨-299, 0, 1⟩, ⟨30, 15⟩, 7, -3, 4, 9⟩).1.p1Y = 0
    ∧ (check_point_scored default_options ⟨⟨-299, 0, 1⟩, ⟨30, 15⟩, 7, -3, 4, 9⟩).1.p2Y = 0
    ∧ (check_point_scored default_options ⟨⟨-299, 0, 1⟩, ⟨30, 15⟩, 7, -3, 4, 9⟩).1.p2Score
      = (9 + 1) % 65536
    ∧ (check_point_scored default_options ⟨⟨-299, 0, 1⟩, ⟨30, 15⟩, 7, -3, 4, 9⟩).1.p1Score = 4 :=
  left_score_effects default_options ⟨⟨-299, 0, 1⟩, ⟨30, 15⟩, 7, -3, 4, 9⟩
    (by norm_num [default_options]) (by norm_num [default_options])

/-! ## Claim C7 — face classification and axis negation -/

/-- Claim C7: for a detected paddle-ball collision, a `Left`/`Right` face
classification makes the paddle loop body negate only the horizontal
velocity component, and a `Top`/`Bottom` classification negate only the
vertical one; the other component is unchanged by that match. -/
theorem face_axis_negation (o : PongOptions) (ball_pos paddle_pos : Vec3) (v : Vec2)
    (c : Collision)
    (h : collide paddle_pos o.player.size ball_pos o.ball.size = some c) :
    ((c = Collision.Left ∨ c = Collision.Right) →
      resolve_paddle o ball_pos v paddle_pos = ⟨-v.x, v.y⟩)
    ∧ ((c = Collision.Top ∨ c = Collision.Bottom) →
      resolve_paddle o ball_pos v paddle_pos = ⟨v.x, -v.y⟩) := by
  unfold resolve_paddle
  rw [h]
  cases c <;> simp

/-- Claim C7, witness: a 2×2 paddle at the origin struck by a 2×2 ball at
(3/2, 0) is classified `Left`; a ball velocity (4, 7) becomes (-4, 7). -/
theorem face_axis_negation_witness :
    collide ⟨0, 0, 0⟩ square_options.player.size ⟨3/2, 0, 1⟩ square_options.ball.size
      = some Collision.Left
    ∧ resolve_paddle square_options ⟨3/2, 0, 1⟩ ⟨4, 7⟩ ⟨0, 0, 0⟩ = ⟨-4, 7⟩ := by
  have hc : collide ⟨0, 0, 0⟩ square_options.player.size ⟨3/2, 0, 1⟩ square_options.ball.size
      = some Collision.Left := by
    norm_num [collide, square_options]
  exact ⟨hc, (face_axis_negation square_options ⟨3/2, 0, 1⟩ ⟨0, 0, 0⟩ ⟨4, 7⟩
    Collision.Left hc).1 (Or.inl rfl)⟩

/-! ## Claim C8 — collision-free Euler step -/

/-- A paddle loop in which no paddle overlaps the ball leaves the velocity
accumulator unchanged. -/
theorem foldl_resolve_none (o : PongOptions) (pos : Vec3) (paddles : List Vec3) (v : Vec2)
    (h : ∀ p ∈ paddles, collide p o.player.size pos o.ball.size = none) :
    paddles.foldl (resolve_paddle o pos) v = v := by
  induction paddles generalizing v with
  | nil => rfl
  | cons p ps ih =>
      have hp : resolve_paddle o pos v p = v := by
        unfold resolve_paddle
        rw [h p (List.mem_cons_self p ps)]
      rw [List.foldl_cons, hp]
      exact ih v (fun q hq => h q (List.mem_cons_of_mem p hq))

/-- Claim C8: for `dt ≥ 0`, when the integrated position overlaps no paddle
and touches neither wall, `apply_ball_velocity` moves the ball to exactly
`pos + velocity * dt` and leaves the velocity unchanged. -/
theorem no_collision_euler (o : PongOptions) (dt : ℚ) (paddles : List Vec3) (b : BallState)
    (_hdt : 0 ≤ dt)
    (hp : ∀ p ∈ paddles, collide p o.player.size (integrate dt b) o.ball.size = none)
    (ht : (integrate dt b).y + o.ball.size.y / 2 < o.game.size.y / 2)
    (hb : -(o.game.size.y / 2) < (integrate dt b).y - o.ball.size.y / 2) :
    (apply_ball_velocity o dt paddles b).pos
        = ⟨b.pos.x + b.vel.x * dt, b.pos.y + b.vel.y * dt, b.pos.z⟩
    ∧ (apply_ball_velocity o dt paddles b).vel = b.vel := by
  have hv : paddle_vel o dt paddles b = b.vel :=
    foldl_resolve_none o (integrate dt b) paddles b.vel hp
  simp only [apply_ball_velocity]
  rw [if_neg (not_le.mpr ht), if_neg (not_le.mpr hb)]
  exact ⟨rfl, hv⟩

/-- Claim C8, witness: default configuration, both paddles at their start
abscissas, ball from the center at velocity (30, 15) for one second. -/
theorem no_collision_euler_witness :
    (apply_ball_velocity default_options 1 [⟨-295, 0, 1⟩, ⟨295, 0, 1⟩]
        ⟨⟨0, 0, 1⟩, ⟨30, 15⟩⟩).pos = ⟨0 + 30 * 1, 0 + 15 * 1, 1⟩
    ∧ (apply_ball_velocity default_options 1 [⟨-295, 0, 1⟩, ⟨295, 0, 1⟩]
        ⟨⟨0, 0, 1⟩, ⟨30, 15⟩⟩).vel = ⟨30, 15⟩ :=
  no_collision_euler default_options 1 [⟨-295, 0, 1⟩, ⟨295, 0, 1⟩] ⟨⟨0, 0, 1⟩, ⟨30, 15⟩⟩
    (by norm_num)
    (by intro p hp
        simp only [List.mem_cons, List.not_mem_nil, or_false] at hp
        rcases hp with rfl | rfl
        · norm_num [collide, integrate, default_options]
        · norm_num [collide, integrate, default_options])
    (by norm_num [integrate, default_options])
    (by norm_num [integrate, default_options])

/-! ## Claim C9 — paddle collisions never reposition the ball -/

/-- Claim C9: the ball position produced by `apply_ball_velocity` does not
depend on the paddles at all — it is identical to the position produced
with no paddles present, so any position change comes solely from the
Euler integration and the wall clamping; paddle collisions touch only the
velocity. -/
theorem paddle_hits_preserve_position (o : PongOptions) (dt : ℚ) (paddles : List Vec3)
    (b : BallState) :
    (apply_ball_velocity o dt paddles b).pos = (apply_ball_velocity o dt [] b).pos := by
  simp only [apply_ball_velocity]
  split_ifs <;> rfl

/-! ## Claim C10 — reset depth differs from spawn depth -/

/-- Claim C10: whenever `check_point_scored` resets the ball it sets the
full translation to the constant `(0, 0, 1)`, whereas the spawn translation
`Ball.start_position` has depth `game.position.z + 1`; for any
configuration with `game.position.z ≠ 0` the depth after the first score
differs from the spawn depth. -/
theorem reset_z_constant (o : PongOptions) (st : PongState)
    (h : st.ballPos.x - o.ball.size.x / 2 ≤ -(o.game.size.x / 2)
         ∨ o.game.size.x / 2 ≤ st.ballPos.x + o.ball.size.x / 2)
    (hz : o.game.position.z ≠ 0) :
    (check_point_scored o st).1.ballPos = ⟨0, 0, 1⟩
    ∧ (Ball.start_position o).z ≠ (check_point_scored o st).1.ballPos.z := by
  have hreset : (check_point_scored o st).1.ballPos = ⟨0, 0, 1⟩ := by
    simp only [check_point_scored]
    by_cases hL : st.ballPos.x - o.ball.size.x / 2 ≤ -(o.game.size.x / 2)
    · rw [if_pos hL]
    · rw [if_neg hL, if_pos (h.resolve_left hL)]
  refine ⟨hreset, ?_⟩
  rw [hreset]
  simp only [Ball.start_position]
  intro hcontra
  exact hz (by linarith)

/-- Claim C10, witness: the default configuration moved to depth 5 spawns
the ball at depth 6 but resets it to depth 1 after a left-boundary score. -/
theorem reset_z_constant_witness :
    (check_point_scored depth_options ⟨⟨-299, 0, 1⟩, ⟨30, 15⟩, 0, 0, 0, 0⟩).1.ballPos
      = ⟨0, 0, 1⟩
    ∧ (Ball.start_position depth_options).z
        ≠ (check_point_scored depth_options ⟨⟨-299, 0, 1⟩, ⟨30, 15⟩, 0, 0, 0, 0⟩).1.ballPos.z :=
  reset_z_constant depth_options ⟨⟨-299, 0, 1⟩, ⟨30, 15⟩, 0, 0, 0, 0⟩
    (Or.inl (by norm_num [depth_options])) (by norm_num [depth_options])

end Pong
